import Mathlib

/-!
# WhatsApp → Camunda relay (`server.js`)

A shallow embedding of the relay's request handlers and of the helper
functions they call, followed by the properties proved about them.

* JavaScript values are the inductive type `JVal`; an exception is the
  `error` case of `Except JsError`.
* The functions of the Node library that the source calls and that are not
  part of the language (`crypto.createHmac(..).digest("hex")`, base64
  encoding of a buffer) are the fields of `NodeLib`; every theorem holds for
  all implementations of them.
* A handler run is the list of HTTP effects it performs, in order, together
  with the way it ends.  Console output is not part of the trace, so `PORT`
  and `LOG_LEVEL`, which only steer listening and logging, are left out.
-/

namespace WaRelay

/-! ## JavaScript values -/

/-- The two kinds of exception the modelled code can raise. -/
inductive JsError where
  | typeError
  | rangeError
deriving DecidableEq

/-- A JavaScript value that can reach the handlers: `undefined`, or a value
built by a JSON or query-string parser.  A number is carried as its `ToString`
rendering (so `-0` and `0` are both `"0"`): truthiness and string conversion,
the only things the source does with a number, are functions of it.  The
properties of an object are listed in the engine's enumeration order, each
key once. -/
inductive JVal where
  | undefined
  | null
  | bool (b : Bool)
  | num (repr : String)
  | str (s : String)
  | arr (xs : List JVal)
  | obj (props : List (String × JVal))

namespace JVal

/-- The test `v === undefined || v === null` behind `?.` and `??`. -/
def nullish : JVal → Bool
  | .undefined => true
  | .null => true
  | _ => false

/-- The value of `!!v`: the falsy values are `undefined`, `null`, `false`,
`0`, `-0`, `NaN` and the empty string. -/
def truthy : JVal → Bool
  | .undefined => false
  | .null => false
  | .bool b => b
  | .num r => !(r == "0" || r == "NaN")
  | .str s => !(s == "")
  | .arr _ => true
  | .obj _ => true

/-- The own property `k` of an object with properties `ps`, `undefined` when
there is none. -/
def ownProp : List (String × JVal) → String → JVal
  | [], _ => .undefined
  | (k, v) :: ps, key => if k = key then v else ownProp ps key

/-- Whether `k` is an own property of an object with properties `ps`. -/
def hasOwn : List (String × JVal) → String → Bool
  | [], _ => false
  | (k, _) :: ps, key => k == key || hasOwn ps key

/-- The optional read `v?.k`, for a property name `k` that is not an array
index, `length`, or a name defined on a built-in prototype (the source reads
`entry`, `changes`, `value`, `messages`, `from`, `type`, `text`, `body`,
`button`, `payload`, `interactive`, `button_reply`, `list_reply`, `title`,
`id` and `timestamp`): `undefined` on `undefined` and `null`, the own
property on an object, and `undefined` on a primitive or an array. -/
def optProp (v : JVal) (k : String) : JVal :=
  match v with
  | .obj ps => ownProp ps k
  | _ => .undefined

/-- The plain read `v.k` for the same property names: a `TypeError` on
`undefined` and `null`. -/
def getProp (v : JVal) (k : String) : Except JsError JVal :=
  if v.nullish then .error .typeError else .ok (optProp v k)

/-- The optional index `v?.[0]`: the first element of an array, the first
code unit of a string (for a character outside the Basic Multilingual Plane
JavaScript gives its leading surrogate, which like the character modelled
here is a non-empty string), the own property `"0"` of an object, and
`undefined` otherwise. -/
def optIndex0 (v : JVal) : JVal :=
  match v with
  | .arr (x :: _) => x
  | .str s =>
    match s.data with
    | c :: _ => .str (String.singleton c)
    | [] => .undefined
  | .obj ps => ownProp ps "0"
  | _ => .undefined

/-- The comparison `v === s` with a string `s`. -/
def strictEqStr (v : JVal) (s : String) : Bool :=
  match v with
  | .str t => t == s
  | _ => false

/-- The operator `a ?? b` for operands whose evaluation cannot throw. -/
def coalesce (a b : JVal) : JVal :=
  if a.nullish then b else a

mutual
/-- The abstract operation `ToString`, as a template literal applies it.  An
object with an own `toString` property (never callable in parsed JSON) has no
primitive value, which is a `TypeError`; an array is joined with commas. -/
def toStr : JVal → Except JsError String
  | .undefined => .ok "undefined"
  | .null => .ok "null"
  | .bool true => .ok "true"
  | .bool false => .ok "false"
  | .num r => .ok r
  | .str s => .ok s
  | .arr xs => joinComma xs
  | .obj ps => if hasOwn ps "toString" then .error .typeError else .ok "[object Object]"
termination_by structural v => v
/-- The method `Array.prototype.join` with the default separator: `undefined`
and `null` elements contribute the empty string. -/
def joinComma : List JVal → Except JsError String
  | [] => .ok ""
  | x :: rest => do
    let a ← (match x with
      | .undefined => .ok ""
      | .null => .ok ""
      | v => toStr v)
    match rest with
    | [] => pure a
    | _ :: _ => do
      let b ← joinComma rest
      pure (a ++ "," ++ b)
termination_by structural xs => xs
end

/-- The method `String.prototype.startsWith` on strings of code points. -/
def startsWith (s p : String) : Bool :=
  p.data.isPrefixOf s.data

/-- The optional call `v?.startsWith(p)`: `undefined` when `v` is `undefined`
or `null`, the boolean result on a string, and a `TypeError` on every other
value, whose `startsWith` is not a function. -/
def optStartsWith (v : JVal) (p : String) : Except JsError JVal :=
  match v with
  | .undefined => .ok .undefined
  | .null => .ok .undefined
  | .str s => .ok (.bool (startsWith s p))
  | _ => .error .typeError

/-! ## `JSON.stringify` -/

/-- The escape of one character inside a JSON string literal. -/
def quoteChar (c : Char) : String :=
  if c = Char.ofNat 34 then "\\\""
  else if c = Char.ofNat 92 then "\\\\"
  else if c = Char.ofNat 8 then "\\b"
  else if c = Char.ofNat 12 then "\\f"
  else if c = Char.ofNat 10 then "\\n"
  else if c = Char.ofNat 13 then "\\r"
  else if c = Char.ofNat 9 then "\\t"
  else if c.toNat < 32 then
    "\\u00" ++ String.mk [Nat.digitChar (c.toNat / 16), Nat.digitChar (c.toNat % 16)]
  else String.singleton c

/-- The JSON string literal for `s`. -/
def quoteJSON (s : String) : String :=
  "\"" ++ String.join (s.data.map quoteChar) ++ "\""

mutual
/-- The function `JSON.stringify` with one argument; `none` stands for the
result `undefined`.  Inside an array `undefined` is written `null`, inside an
object a property whose value is `undefined` is dropped. -/
def jsonStringify : JVal → Option String
  | .undefined => none
  | .null => some "null"
  | .bool true => some "true"
  | .bool false => some "false"
  | .num r => some (if r = "NaN" ∨ r = "Infinity" ∨ r = "-Infinity" then "null" else r)
  | .str s => some (quoteJSON s)
  | .arr xs => some ("[" ++ String.intercalate "," (stringifyElems xs) ++ "]")
  | .obj ps => some ("\x7b" ++ String.intercalate "," (stringifyProps ps) ++ "\x7d")
termination_by structural v => v
/-- The serialized elements of an array. -/
def stringifyElems : List JVal → List String
  | [] => []
  | x :: rest => (jsonStringify x).getD "null" :: stringifyElems rest
termination_by structural xs => xs
/-- The serialized members of an object. -/
def stringifyProps : List (String × JVal) → List String
  | [] => []
  | (k, v) :: rest =>
    match jsonStringify v with
    | some t => (quoteJSON k ++ ":" ++ t) :: stringifyProps rest
    | none => stringifyProps rest
termination_by structural ps => ps
end

end JVal

open JVal

/-! ## Buffers -/

/-- The UTF-8 encoding of one code point. -/
def utf8EncodeChar (c : Nat) : List Nat :=
  if c < 0x80 then [c]
  else if c < 0x800 then [0xC0 + c / 64, 0x80 + c % 64]
  else if c < 0x10000 then [0xE0 + c / 4096, 0x80 + c / 64 % 64, 0x80 + c % 64]
  else [0xF0 + c / 262144, 0x80 + c / 4096 % 64, 0x80 + c / 64 % 64, 0x80 + c % 64]

/-- The bytes of `Buffer.from(s)` for a string `s` (UTF-8 is the default
encoding). -/
def bufferFrom (s : String) : List Nat :=
  s.data.flatMap (fun c => utf8EncodeChar c.toNat)

/-- The function `crypto.timingSafeEqual`: a `RangeError` when the two buffers
differ in byte length, otherwise whether they hold the same bytes. -/
def timingSafeEqual (a b : List Nat) : Except JsError Bool :=
  if a.length = b.length then .ok (a == b) else .error .rangeError

/-- The library functions the source calls and that are taken as given:
`hmacSha256Hex key data` is
`crypto.createHmac("sha256", key).update(data).digest("hex")`, and
`base64 bytes` is `buffer.toString("base64")`. -/
structure NodeLib where
  hmacSha256Hex : String → String → String
  base64 : List Nat → String

/-! ## Configuration and startup (`server.js`, lines 9–26) -/

/-- The expression `v || d` for an environment variable `v` (a string, or
`undefined` when the variable is unset) and a non-empty default `d`. -/
def orDefault (v : Option String) (d : String) : String :=
  match v with
  | some s => if s = "" then d else s
  | none => d

/-- The value of `!!v` for an environment variable. -/
def envTruthy (v : Option String) : Bool :=
  match v with
  | some s => !(s == "")
  | none => false

/-- The module-level constants that the handlers read. -/
structure Config where
  WA_VERIFY_TOKEN : String
  WA_APP_SECRET : Option String
  CAMUNDA_WEBHOOK_URL : String
  CAMUNDA_BASIC_USER : String
  CAMUNDA_BASIC_PASS : String

/-- The default of `CAMUNDA_WEBHOOK_URL`. -/
def defaultWebhookUrl : String :=
  "https://bru-2.connectors.camunda.io/f4af082f-f82a-47f7-9355-33bd5ec19903/inbound/3167632d-0216-4b4f-af17-0c5ceda83400"

/-- The constants as lines 12–18 compute them from `process.env`. -/
def loadConfig (env : String → Option String) : Config where
  WA_VERIFY_TOKEN := orDefault (env "WA_VERIFY_TOKEN") "ThisIsATest"
  WA_APP_SECRET := env "WA_APP_SECRET"
  CAMUNDA_WEBHOOK_URL := orDefault (env "CAMUNDA_WEBHOOK_URL") defaultWebhookUrl
  CAMUNDA_BASIC_USER := orDefault (env "CAMUNDA_BASIC_USER") "webhook"
  CAMUNDA_BASIC_PASS := orDefault (env "CAMUNDA_BASIC_PASS") "test123"

/-- How module initialisation ends: `process.exit(code)`, or the server is
set up with the loaded constants. -/
inductive Startup where
  | exit (code : Nat)
  | running (cfg : Config)

/-- The startup check of lines 23–26. -/
def startup (env : String → Option String) : Startup :=
  let cfg := loadConfig env
  if !envTruthy cfg.WA_APP_SECRET || !envTruthy (some cfg.CAMUNDA_WEBHOOK_URL)
      || !envTruthy (some cfg.CAMUNDA_BASIC_PASS) then
    .exit 1
  else
    .running cfg

/-! ## Requests, effects and runs -/

/-- The parts of an Express request that the handlers read: `req.headers`
(lower-cased names), `req.query` and `req.body`, the value left there by
`express.json`. -/
structure Request where
  headers : String → Option String
  query : String → JVal
  body : JVal

/-- The options of the `fetch` call. -/
structure FetchInit where
  method : String
  headers : List (String × String)
  body : Option String
deriving DecidableEq

/-- An HTTP effect of a handler: `res.sendStatus(code)`,
`res.status(code).send(body)`, or `fetch(url, init)`. -/
inductive Effect where
  | sendStatus (code : Nat)
  | send (code : Nat) (body : JVal)
  | fetch (url : String) (init : FetchInit)

/-- Whether an effect is a downstream call. -/
def Effect.isFetch : Effect → Bool
  | .fetch _ _ => true
  | _ => false

/-- What the awaited `fetch` gives: a response with its `ok` flag, status and
the result of reading its text (`none` when the read fails), or a rejection. -/
inductive FetchOutcome where
  | response (ok : Bool) (status : Nat) (text : Option String)
  | failure

/-- How a handler ends: it returns, or an exception leaves it uncaught. -/
inductive Completion where
  | returned
  | threw (e : JsError)
deriving DecidableEq

/-- A run of a handler: its HTTP effects in order and its completion. -/
structure Run where
  trace : List Effect
  completion : Completion

/-- The number of downstream calls in a trace. -/
def downstreamCalls (t : List Effect) : Nat :=
  t.countP Effect.isFetch

/-! ## `verifyMetaSignature` (lines 39–50) -/

/-- The function `verifyMetaSignature`.  `update(body)` throws a `TypeError`
outside the `try` when `JSON.stringify` gives `undefined`; the `RangeError`
of `timingSafeEqual` is caught. -/
def verifyMetaSignature (lib : NodeLib) (cfg : Config) (req : Request) : Except JsError Bool :=
  let sig := req.headers "x-hub-signature-256"
  if !envTruthy sig || !envTruthy cfg.WA_APP_SECRET then .ok false
  else
    match jsonStringify req.body with
    | none => .error .typeError
    | some body =>
      let expected := "sha256=" ++ lib.hmacSha256Hex (cfg.WA_APP_SECRET.getD "") body
      match timingSafeEqual (bufferFrom (sig.getD "")) (bufferFrom expected) with
      | .ok b => .ok b
      | .error _ => .ok false

/-! ## `extractInbound` (lines 53–88) -/

/-- The object `extractInbound` returns. -/
structure NormalizedMessage where
  phone : JVal
  text : JVal
  waMessageId : JVal
  timestamp : JVal

/-- The value of `msg` (lines 54–55):
`body?.entry?.[0]?.changes?.[0]?.value?.messages?.[0]`. -/
def firstMessage (body : JVal) : JVal :=
  let change := optIndex0 (optProp (optIndex0 (optProp body "entry")) "changes")
  optIndex0 (optProp (optProp change "value") "messages")

/-- The value of `phone` (line 59). -/
def messagePhone (msg : JVal) : Except JsError JVal := do
  let sender ← getProp msg "from"
  let test ← optStartsWith sender "+"
  if test.truthy then pure sender
  else do
    let s ← toStr sender
    pure (.str ("+" ++ s))

/-- The value of `text` after the `switch` (lines 61–78). -/
def messageText (msg : JVal) : Except JsError JVal := do
  let type ← getProp msg "type"
  if strictEqStr type "text" then do
    let text ← getProp msg "text"
    pure (coalesce (optProp text "body") (.str ""))
  else if strictEqStr type "button" then do
    let button ← getProp msg "button"
    pure (coalesce (coalesce (optProp button "text") (optProp button "payload")) (.str ""))
  else if strictEqStr type "interactive" then do
    let interactive ← getProp msg "interactive"
    let buttonReply := optProp interactive "button_reply"
    let listReply := optProp interactive "list_reply"
    pure (coalesce (coalesce (coalesce (coalesce (optProp buttonReply "title")
      (optProp buttonReply "id")) (optProp listReply "title")) (optProp listReply "id"))
      (.str ""))
  else do
    let s ← toStr type
    pure (.str ("[" ++ s ++ " received]"))

/-- The function `extractInbound`; `none` is its `null` result. -/
def extractInbound (body : JVal) : Except JsError (Option NormalizedMessage) :=
  let msg := firstMessage body
  if !msg.truthy then .ok none
  else do
    let phone ← messagePhone msg
    let text ← messageText msg
    let waMessageId ← getProp msg "id"
    let timestamp ← getProp msg "timestamp"
    pure (some { phone := phone, text := text, waMessageId := waMessageId, timestamp := timestamp })

/-- The object literal of lines 80–87 as a value. -/
def NormalizedMessage.toJVal (m : NormalizedMessage) : JVal :=
  .obj [("phone", m.phone), ("text", m.text), ("waMessageId", m.waMessageId),
    ("timestamp", m.timestamp)]

/-! ## Routes (lines 93–144) -/

/-- The handler of `GET /wa/webhook`. -/
def getWebhook (cfg : Config) (req : Request) : Effect :=
  let mode := req.query "hub.mode"
  let token := req.query "hub.verify_token"
  let challenge := req.query "hub.challenge"
  if strictEqStr mode "subscribe" && strictEqStr token cfg.WA_VERIFY_TOKEN then
    .send 200 challenge
  else
    .sendStatus 403

/-- The `fetch` call of lines 124–132. -/
def forwardCall (lib : NodeLib) (cfg : Config) (inbound : NormalizedMessage) : Effect :=
  let basic := lib.base64 (bufferFrom (cfg.CAMUNDA_BASIC_USER ++ ":" ++ cfg.CAMUNDA_BASIC_PASS))
  .fetch cfg.CAMUNDA_WEBHOOK_URL
    { method := "POST"
      headers := [("content-type", "application/json"), ("authorization", "Basic " ++ basic)]
      body := jsonStringify inbound.toJVal }

/-- The handler of `POST /wa/webhook`, run against the outcome `downstream`
of its `fetch` call.  After the call every branch only writes to the console,
and a rejection of `fetch` is caught by the `try`. -/
def postWebhook (lib : NodeLib) (cfg : Config) (req : Request) (downstream : FetchOutcome) : Run :=
  match verifyMetaSignature lib cfg req with
  | .error e => { trace := [], completion := .threw e }
  | .ok false => { trace := [.sendStatus 401], completion := .returned }
  | .ok true =>
    match extractInbound req.body with
    | .error e => { trace := [.sendStatus 200], completion := .threw e }
    | .ok none => { trace := [.sendStatus 200], completion := .returned }
    | .ok (some inbound) =>
      match downstream with
      | .response true _ _ =>
        { trace := [.sendStatus 200, forwardCall lib cfg inbound], completion := .returned }
      | .response false _ _ =>
        { trace := [.sendStatus 200, forwardCall lib cfg inbound], completion := .returned }
      | .failure =>
        { trace := [.sendStatus 200, forwardCall lib cfg inbound], completion := .returned }

/-! ## Concrete inputs -/

/-- An implementation of the library functions at which theorems are
instantiated on concrete inputs. -/
def sampleLib : NodeLib where
  hmacSha256Hex := fun key data => key ++ "/" ++ data
  base64 := fun bytes => String.mk (bytes.map Char.ofNat)

/-- The environment in which only `WA_APP_SECRET` is set. -/
def sampleEnv (name : String) : Option String :=
  if name = "WA_APP_SECRET" then some "s3cret" else none

/-- The constants loaded from `sampleEnv`. -/
def sampleConfig : Config :=
  loadConfig sampleEnv

/-- A POST request with the given signature header and parsed body. -/
def postRequest (sig : Option String) (body : JVal) : Request where
  headers := fun name => if name = "x-hub-signature-256" then sig else none
  query := fun _ => .undefined
  body := body

/-- The POST request with parsed body `body` whose signature header is the one
`verifyMetaSignature` computes for it. -/
def signedRequest (lib : NodeLib) (cfg : Config) (body : JVal) : Request :=
  postRequest
    ((jsonStringify body).map
      (fun s => "sha256=" ++ lib.hmacSha256Hex (cfg.WA_APP_SECRET.getD "") s))
    body

/-- The body of a delivery whose `messages` array holds the one value `msg`. -/
def deliveryWith (msg : JVal) : JVal :=
  .obj [("object", .str "whatsapp_business_account"),
    ("entry", .arr [.obj [("id", .str "0"),
      ("changes", .arr [.obj [
        ("value", .obj [("messaging_product", .str "whatsapp"), ("messages", .arr [msg])]),
        ("field", .str "messages")]])]])]

/-- The body of a delivery that reports a status and holds no message. -/
def statusUpdateBody : JVal :=
  .obj [("object", .str "whatsapp_business_account"),
    ("entry", .arr [.obj [("id", .str "0"),
      ("changes", .arr [.obj [
        ("value", .obj [("messaging_product", .str "whatsapp"),
          ("statuses", .arr [.obj [("id", .str "wamid.1"), ("status", .str "delivered")]])]),
        ("field", .str "messages")]])]])]

/-- A text message whose sender id is the string `sender`. -/
def textMessage (sender : JVal) : JVal :=
  .obj [("from", sender), ("id", .str "wamid.1"), ("timestamp", .str "1700000000"),
    ("type", .str "text"), ("text", .obj [("body", .str "Hello")])]

/-- The bytes of a delivery as the platform writes them, with the non-ASCII
character of the message text escaped. -/
def escapedRawBody : String :=
  "\x7b\"entry\":[\x7b\"changes\":[\x7b\"value\":\x7b\"messages\":[\x7b\"from\":\"15551234567\",\"id\":\"wamid.1\",\"timestamp\":\"1700000000\",\"type\":\"text\",\"text\":\x7b\"body\":\"caf\\u00e9\"\x7d\x7d]\x7d\x7d]\x7d]\x7d"

/-- The value `JSON.parse` gives for `escapedRawBody`. -/
def escapedParsedBody : JVal :=
  .obj [("entry", .arr [.obj [("changes", .arr [.obj [("value", .obj [("messages",
    .arr [.obj [("from", .str "15551234567"), ("id", .str "wamid.1"),
      ("timestamp", .str "1700000000"), ("type", .str "text"),
      ("text", .obj [("body", .str "café")])]])])]])]])]

/-- What `JSON.stringify` gives for `escapedParsedBody`. -/
def reserializedBody : String :=
  "\x7b\"entry\":[\x7b\"changes\":[\x7b\"value\":\x7b\"messages\":[\x7b\"from\":\"15551234567\",\"id\":\"wamid.1\",\"timestamp\":\"1700000000\",\"type\":\"text\",\"text\":\x7b\"body\":\"café\"\x7d\x7d]\x7d\x7d]\x7d]\x7d"

/-- A GET request with the three query parameters of the handshake. -/
def getRequest (mode token challenge : JVal) : Request where
  headers := fun _ => none
  query := fun name =>
    if name = "hub.mode" then mode
    else if name = "hub.verify_token" then token
    else if name = "hub.challenge" then challenge
    else .undefined
  body := .undefined

/-- A text message whose sender id is a JSON number. -/
def numericSenderBody : JVal :=
  deliveryWith (textMessage (.num "15551234567"))

/-- A message whose type is an object with a `toString` member. -/
def objectTypeBody : JVal :=
  deliveryWith (.obj [("from", .str "15551234567"), ("id", .str "wamid.2"),
    ("timestamp", .str "1700000000"), ("type", .obj [("toString", .null)])])

/-- An interactive message whose button reply has an empty title and the id
`"b1"`. -/
def emptyTitleMessage : JVal :=
  .obj [("from", .str "15551234567"), ("id", .str "wamid.3"),
    ("timestamp", .str "1700000000"), ("type", .str "interactive"),
    ("interactive", .obj [("type", .str "button_reply"),
      ("button_reply", .obj [("id", .str "b1"), ("title", .str "")])])]

/-- The first value of a list that is neither `undefined`, `null` nor the empty
string, and the empty string when there is none: "the first non-empty value"
of the specification. -/
def firstNonEmpty : List JVal → JVal
  | [] => .str ""
  | .undefined :: rest => firstNonEmpty rest
  | .null :: rest => firstNonEmpty rest
  | .str s :: rest => if s = "" then firstNonEmpty rest else .str s
  | v :: _ => v

/-- The first value of a list that is neither `undefined` nor `null`, and the
empty string when there is none. -/
def firstPresent : List JVal → JVal
  | [] => .str ""
  | v :: rest => if v.nullish then firstPresent rest else v

/-- The four candidates for the text of an interactive message, in the order
the source reads them: the title and id of `button_reply`, then the title and
id of `list_reply`. -/
def interactiveCandidates (msg : JVal) : List JVal :=
  [optProp (optProp (optProp msg "interactive") "button_reply") "title",
    optProp (optProp (optProp msg "interactive") "button_reply") "id",
    optProp (optProp (optProp msg "interactive") "list_reply") "title",
    optProp (optProp (optProp msg "interactive") "list_reply") "id"]

/-- A button message with no `text` member and the payload `"BTN1"`. -/
def buttonMessage : JVal :=
  .obj [("from", .str "+15551234567"), ("id", .str "wamid.4"),
    ("timestamp", .str "1700000000"), ("type", .str "button"),
    ("button", .obj [("payload", .str "BTN1")])]

/-- A location message. -/
def locationMessage : JVal :=
  .obj [("from", .str "15551234567"), ("id", .str "wamid.5"),
    ("timestamp", .num "1700000000"), ("type", .str "location"),
    ("location", .obj [("latitude", .num "-33.9"), ("longitude", .num "18.4")])]

/-! ## Theorems -/

/-- A plain property read of a truthy value does not throw. -/
theorem getProp_of_truthy {msg : JVal} (h : msg.truthy = true) (k : String) :
    getProp msg k = .ok (optProp msg k) := by
  cases msg <;> simp [getProp, nullish, truthy] at *

/-- A character is a code point below `0x110000`. -/
theorem char_toNat_lt (c : Char) : c.toNat < 0x110000 := by
  have := c.valid
  simp [UInt32.isValidChar, Nat.isValidChar, Char.toNat] at *
  omega

/-- Two characters with one code point are equal. -/
theorem char_toNat_injective {c d : Char} (h : c.toNat = d.toNat) : c = d := by
  rw [← Char.ofNat_toNat c, ← Char.ofNat_toNat d, h]

/-- The encodings of code points form a prefix code. -/
theorem utf8EncodeChar_append_inj {c d : Nat} (hc : c < 0x110000) (hd : d < 0x110000)
    {r s : List Nat} (h : utf8EncodeChar c ++ r = utf8EncodeChar d ++ s) : c = d ∧ r = s := by
  unfold utf8EncodeChar at h
  split_ifs at h <;> simp at h <;>
    first
    | (exfalso; omega)
    | exact ⟨by omega, by tauto⟩

/-- The encoding of a code point has at least one byte. -/
theorem utf8EncodeChar_ne_nil (c : Nat) : utf8EncodeChar c ≠ [] := by
  unfold utf8EncodeChar
  split_ifs <;> simp

/-- Two lists of characters with the same UTF-8 bytes are equal. -/
theorem utf8_data_injective : ∀ (a b : List Char),
    a.flatMap (fun c => utf8EncodeChar c.toNat) = b.flatMap (fun c => utf8EncodeChar c.toNat) →
    a = b
  | [], [], _ => rfl
  | [], d :: ds, h => by
    simp at h
    exact absurd h.1 (utf8EncodeChar_ne_nil _)
  | c :: cs, [], h => by
    simp at h
    exact absurd h.1 (utf8EncodeChar_ne_nil _)
  | c :: cs, d :: ds, h => by
    simp only [List.flatMap_cons] at h
    obtain ⟨h1, h2⟩ := utf8EncodeChar_append_inj (char_toNat_lt c) (char_toNat_lt d) h
    rw [char_toNat_injective h1, utf8_data_injective cs ds h2]

/-- The function `bufferFrom` is injective. -/
theorem bufferFrom_injective {a b : String} (h : bufferFrom a = bufferFrom b) : a = b :=
  String.ext (utf8_data_injective a.data b.data h)

/-- A tagged signature is not the empty string. -/
theorem sha256_tag_ne_empty (x : String) : (("sha256=" ++ x) == "") = false := by
  have h : ("sha256=" ++ x) ≠ "" := by
    intro h
    have := congrArg String.length h
    simp [String.length_append] at this
    exact absurd this.1 (by decide)
  simpa using h

/-- The comparison of lines 44–49, `RangeError` caught, is string equality. -/
theorem timingSafeEqual_bufferFrom (a b : String) :
    (match timingSafeEqual (bufferFrom a) (bufferFrom b) with
      | .ok r => (.ok r : Except JsError Bool)
      | .error _ => .ok false) = .ok (decide (a = b)) := by
  unfold timingSafeEqual
  by_cases h : a = b
  · subst h
    simp
  · have hb : bufferFrom a ≠ bufferFrom b := fun hb => h (bufferFrom_injective hb)
    split_ifs <;> simp [h, hb]

/-- With a non-empty header and secret, `verifyMetaSignature` returns whether
the header is `"sha256="` followed by the HMAC of `JSON.stringify(req.body)`. -/
theorem verifyMetaSignature_eq (lib : NodeLib) (cfg : Config) (req : Request)
    (sig secret serialized : String)
    (hsig : req.headers "x-hub-signature-256" = some sig) (hsig0 : sig ≠ "")
    (hsecret : cfg.WA_APP_SECRET = some secret) (hsecret0 : secret ≠ "")
    (hbody : jsonStringify req.body = some serialized) :
    verifyMetaSignature lib cfg req
      = .ok (decide (sig = "sha256=" ++ lib.hmacSha256Hex secret serialized)) := by
  unfold verifyMetaSignature
  simp only [hsig, hsecret, hbody, envTruthy, Option.getD_some]
  have h1 : (sig == "") = false := by simpa using hsig0
  have h2 : (secret == "") = false := by simpa using hsecret0
  simp only [h1, h2, Bool.not_false, Bool.not_true, Bool.or_self, Bool.false_eq_true, if_false]
  exact timingSafeEqual_bufferFrom _ _

/-- The comparison `v === s` holds exactly for the string `s`. -/
theorem strictEqStr_iff (v : JVal) (s : String) : strictEqStr v s = true ↔ v = .str s := by
  cases v <;> simp [strictEqStr]

/-- C1 (the code at the failing input): when the secret is set and the header
carries the signature of the raw bytes `raw`, `verifyMetaSignature` answers
`false` as soon as the HMAC of `raw` differs from the HMAC of
`JSON.stringify(req.body)`, the text the code hashes instead. -/
theorem verifyMetaSignature_rejects_raw_body_signature (lib : NodeLib) (cfg : Config)
    (req : Request) (secret raw serialized : String)
    (hsecret : cfg.WA_APP_SECRET = some secret) (hsecret0 : secret ≠ "")
    (hbody : jsonStringify req.body = some serialized)
    (hsig : req.headers "x-hub-signature-256"
      = some ("sha256=" ++ lib.hmacSha256Hex secret raw))
    (hdiff : lib.hmacSha256Hex secret raw ≠ lib.hmacSha256Hex secret serialized) :
    verifyMetaSignature lib cfg req = .ok false := by
  have hne : ("sha256=" ++ lib.hmacSha256Hex secret raw) ≠ "" := by
    have := sha256_tag_ne_empty (lib.hmacSha256Hex secret raw)
    simpa using this
  rw [verifyMetaSignature_eq lib cfg req _ secret serialized hsig hne hsecret hsecret0 hbody]
  have : ¬ ("sha256=" ++ lib.hmacSha256Hex secret raw
      = "sha256=" ++ lib.hmacSha256Hex secret serialized) := by
    intro h
    apply hdiff
    have h2 := congrArg String.data h
    simp only [String.data_append] at h2
    exact String.ext (List.append_cancel_left h2)
  simp [this]

/-- The theorem above at a delivery whose raw bytes escape the `é` of the
message text, which `JSON.stringify` writes unescaped. -/
theorem verifyMetaSignature_rejects_raw_body_signature_witness :
    jsonStringify escapedParsedBody = some reserializedBody ∧
    sampleLib.hmacSha256Hex "s3cret" escapedRawBody
      ≠ sampleLib.hmacSha256Hex "s3cret" reserializedBody ∧
    verifyMetaSignature sampleLib sampleConfig
      (postRequest (some ("sha256=" ++ sampleLib.hmacSha256Hex "s3cret" escapedRawBody))
        escapedParsedBody) = .ok false :=
  ⟨rfl, by decide,
    verifyMetaSignature_rejects_raw_body_signature sampleLib sampleConfig _ "s3cret"
      escapedRawBody reserializedBody rfl (by decide) rfl rfl (by decide)⟩

/-- C2: when `verifyMetaSignature` returns `false`, the POST handler answers
401, returns, and calls nothing downstream, whatever the body and whatever a
downstream call would have given. -/
theorem postWebhook_rejects_invalid_signature (lib : NodeLib) (cfg : Config) (req : Request)
    (downstream : FetchOutcome) (h : verifyMetaSignature lib cfg req = .ok false) :
    (postWebhook lib cfg req downstream).trace = [.sendStatus 401] ∧
    (postWebhook lib cfg req downstream).completion = .returned ∧
    downstreamCalls (postWebhook lib cfg req downstream).trace = 0 := by
  unfold postWebhook
  rw [h]
  exact ⟨rfl, rfl, rfl⟩

/-- The theorem above at a text message delivered without a signature header. -/
theorem postWebhook_rejects_invalid_signature_witness :
    verifyMetaSignature sampleLib sampleConfig
      (postRequest none (deliveryWith (textMessage (.str "15551234567")))) = .ok false ∧
    (postWebhook sampleLib sampleConfig
      (postRequest none (deliveryWith (textMessage (.str "15551234567")))) .failure).trace
      = [.sendStatus 401] :=
  ⟨rfl, (postWebhook_rejects_invalid_signature sampleLib sampleConfig
    (postRequest none (deliveryWith (textMessage (.str "15551234567")))) .failure rfl).1⟩

/-- C4: the GET handler answers `res.status(200).send(challenge)` exactly when
`hub.mode` is the string `"subscribe"` and `hub.verify_token` is the configured
token, and `res.sendStatus(403)` otherwise; the 403 answer carries nothing of
the request, so two failing requests that differ in the challenge get the same
answer. -/
theorem getWebhook_spec (cfg : Config) (req : Request) :
    (req.query "hub.mode" = .str "subscribe" ∧
        req.query "hub.verify_token" = .str cfg.WA_VERIFY_TOKEN →
      getWebhook cfg req = .send 200 (req.query "hub.challenge")) ∧
    (¬ (req.query "hub.mode" = .str "subscribe" ∧
        req.query "hub.verify_token" = .str cfg.WA_VERIFY_TOKEN) →
      getWebhook cfg req = .sendStatus 403 ∧
      ∀ challenge : JVal,
        getWebhook cfg (getRequest (req.query "hub.mode") (req.query "hub.verify_token")
          challenge) = .sendStatus 403) := by
  constructor
  · rintro ⟨h1, h2⟩
    simp [getWebhook, h1, h2, strictEqStr]
  · intro h
    have hf : (strictEqStr (req.query "hub.mode") "subscribe"
        && strictEqStr (req.query "hub.verify_token") cfg.WA_VERIFY_TOKEN) = false := by
      rw [Bool.eq_false_iff]
      intro hb
      rw [Bool.and_eq_true, strictEqStr_iff, strictEqStr_iff] at hb
      exact h hb
    constructor
    · simp only [getWebhook, hf]
      rfl
    · intro challenge
      have : (getWebhook cfg (getRequest (req.query "hub.mode") (req.query "hub.verify_token")
          challenge)) = (if (strictEqStr (req.query "hub.mode") "subscribe"
        && strictEqStr (req.query "hub.verify_token") cfg.WA_VERIFY_TOKEN) = true
          then .send 200 challenge else .sendStatus 403) := rfl
      rw [this, hf]
      rfl

/-- The theorem above with the default token, matched and mismatched. -/
theorem getWebhook_spec_witness :
    getWebhook sampleConfig (getRequest (.str "subscribe") (.str "ThisIsATest") (.str "1158201444"))
      = .send 200 (.str "1158201444") ∧
    getWebhook sampleConfig (getRequest (.str "subscribe") (.str "guess") (.str "1158201444"))
      = .sendStatus 403 :=
  ⟨(getWebhook_spec sampleConfig
      (getRequest (.str "subscribe") (.str "ThisIsATest") (.str "1158201444"))).1 ⟨rfl, rfl⟩,
    ((getWebhook_spec sampleConfig
      (getRequest (.str "subscribe") (.str "guess") (.str "1158201444"))).2
        (by
          rintro ⟨_, h⟩
          have h2 : ("guess" : String) = "ThisIsATest" := JVal.str.inj h
          exact absurd h2 (by decide))).1⟩

/-- The expression `v || d` with a non-empty default is not empty. -/
theorem orDefault_ne_empty (v : Option String) (d : String) (hd : d ≠ "") :
    orDefault v d ≠ "" := by
  unfold orDefault
  cases v with
  | none => exact hd
  | some s =>
    by_cases h : s = ""
    · simp [h, hd]
    · simp [h]

/-- An environment variable is truthy exactly when set to a non-empty string. -/
theorem envTruthy_eq_true_iff (v : Option String) :
    envTruthy v = true ↔ ∃ s, v = some s ∧ s ≠ "" := by
  cases v <;> simp [envTruthy]

/-- C10: the startup check calls `process.exit(1)` whenever one of the three
required values is empty or absent once loaded; when it lets the process
continue, the constants are the loaded ones and all three are non-empty; and
it exits whenever `WA_APP_SECRET` is unset or empty (in fact only then, the
other two having non-empty defaults). -/
theorem startup_spec (env : String → Option String) :
    (((loadConfig env).WA_APP_SECRET = none ∨ (loadConfig env).WA_APP_SECRET = some "" ∨
        (loadConfig env).CAMUNDA_WEBHOOK_URL = "" ∨ (loadConfig env).CAMUNDA_BASIC_PASS = "") →
      startup env = .exit 1) ∧
    (∀ cfg : Config, startup env = .running cfg →
      cfg = loadConfig env ∧ (∃ s, cfg.WA_APP_SECRET = some s ∧ s ≠ "") ∧
      cfg.CAMUNDA_WEBHOOK_URL ≠ "" ∧ cfg.CAMUNDA_BASIC_PASS ≠ "") ∧
    ((env "WA_APP_SECRET" = none ∨ env "WA_APP_SECRET" = some "") → startup env = .exit 1) ∧
    (startup env = .exit 1 → (env "WA_APP_SECRET" = none ∨ env "WA_APP_SECRET" = some "")) := by
  have hurl : (loadConfig env).CAMUNDA_WEBHOOK_URL ≠ "" :=
    orDefault_ne_empty _ _ (by decide)
  have hpass : (loadConfig env).CAMUNDA_BASIC_PASS ≠ "" :=
    orDefault_ne_empty _ _ (by decide)
  have hsec : (loadConfig env).WA_APP_SECRET = env "WA_APP_SECRET" := rfl
  have hexit : (env "WA_APP_SECRET" = none ∨ env "WA_APP_SECRET" = some "") →
      startup env = .exit 1 := by
    intro h
    have : envTruthy (loadConfig env).WA_APP_SECRET = false := by
      rw [hsec]
      rcases h with h | h <;> simp [h, envTruthy]
    simp [startup, this]
  have hrun : ¬ (env "WA_APP_SECRET" = none ∨ env "WA_APP_SECRET" = some "") →
      startup env = .running (loadConfig env) := by
    intro h
    have h1 : envTruthy (loadConfig env).WA_APP_SECRET = true := by
      rw [hsec, envTruthy_eq_true_iff]
      cases hs : env "WA_APP_SECRET" with
      | none => exact absurd (Or.inl hs) h
      | some s =>
        refine ⟨s, rfl, ?_⟩
        intro h0
        exact h (Or.inr (by rw [hs, h0]))
    have h2 : envTruthy (some (loadConfig env).CAMUNDA_WEBHOOK_URL) = true := by
      simpa [envTruthy] using hurl
    have h3 : envTruthy (some (loadConfig env).CAMUNDA_BASIC_PASS) = true := by
      simpa [envTruthy] using hpass
    simp [startup, h1, h2, h3]
  refine ⟨?_, ?_, hexit, ?_⟩
  · rintro (h | h | h | h)
    · exact hexit (Or.inl (hsec ▸ h))
    · exact hexit (Or.inr (hsec ▸ h))
    · exact absurd h hurl
    · exact absurd h hpass
  · intro cfg hcfg
    by_cases h : env "WA_APP_SECRET" = none ∨ env "WA_APP_SECRET" = some ""
    · rw [hexit h] at hcfg
      cases hcfg
    · rw [hrun h] at hcfg
      have hc : loadConfig env = cfg := Startup.running.inj hcfg
      subst hc
      refine ⟨rfl, ?_, hurl, hpass⟩
      cases hs : env "WA_APP_SECRET" with
      | none => exact absurd (Or.inl hs) h
      | some s =>
        refine ⟨s, hsec.trans hs, ?_⟩
        intro h0
        exact h (Or.inr (by rw [hs, h0]))
  · intro hx
    by_contra h
    rw [hrun h] at hx
    cases hx

/-- The theorem above in the empty environment, and in one that sets only an
empty `CAMUNDA_BASIC_PASS`. -/
theorem startup_spec_witness :
    startup (fun _ => none) = .exit 1 ∧
    startup (fun name => if name = "CAMUNDA_BASIC_PASS" then some "" else none) = .exit 1 :=
  ⟨(startup_spec (fun _ => none)).2.2.1 (Or.inl rfl),
    (startup_spec (fun name => if name = "CAMUNDA_BASIC_PASS" then some "" else none)).1
      (Or.inl rfl)⟩

/-- A falsy `msg` gives `null`. -/
theorem extractInbound_of_falsy {body : JVal} (h : (firstMessage body).truthy = false) :
    extractInbound body = .ok none := by
  simp [extractInbound, h]

/-- For a truthy `msg` the result is assembled from its phone and text. -/
theorem extractInbound_of_truthy {body : JVal} (h : (firstMessage body).truthy = true) :
    extractInbound body =
      (messagePhone (firstMessage body)).bind (fun phone =>
        (messageText (firstMessage body)).bind (fun text =>
          .ok (some (NormalizedMessage.mk phone text (optProp (firstMessage body) "id")
            (optProp (firstMessage body) "timestamp"))))) := by
  simp only [extractInbound, h, getProp_of_truthy h]
  rfl

/-- For a truthy `msg` whose phone and text are computed, a message is returned. -/
theorem extractInbound_of_parts {body phone text : JVal}
    (h : (firstMessage body).truthy = true)
    (hp : messagePhone (firstMessage body) = .ok phone)
    (ht : messageText (firstMessage body) = .ok text) :
    extractInbound body = .ok (some (NormalizedMessage.mk phone text
      (optProp (firstMessage body) "id") (optProp (firstMessage body) "timestamp"))) := by
  rw [extractInbound_of_truthy h, hp, ht]
  rfl

/-- A returned message comes from a truthy `msg` and carries its parts. -/
theorem extractInbound_some_parts {body : JVal} {m : NormalizedMessage}
    (h : extractInbound body = .ok (some m)) :
    (firstMessage body).truthy = true ∧
    messagePhone (firstMessage body) = .ok m.phone ∧
    messageText (firstMessage body) = .ok m.text ∧
    m.waMessageId = optProp (firstMessage body) "id" ∧
    m.timestamp = optProp (firstMessage body) "timestamp" := by
  cases ht : (firstMessage body).truthy with
  | false =>
    rw [extractInbound_of_falsy ht] at h
    cases h
  | true =>
    rw [extractInbound_of_truthy ht] at h
    cases hp : messagePhone (firstMessage body) with
    | error e =>
      rw [hp] at h
      cases h
    | ok phone =>
      cases hx : messageText (firstMessage body) with
      | error e =>
        rw [hp, hx] at h
        cases h
      | ok text =>
        rw [hp, hx] at h
        have h2 : some (NormalizedMessage.mk phone text (optProp (firstMessage body) "id")
            (optProp (firstMessage body) "timestamp")) = some m := Except.ok.inj h
        have h3 := Option.some.inj h2
        subst h3
        exact ⟨rfl, rfl, rfl, rfl, rfl⟩

/-- A value with a string property is an object, hence truthy. -/
theorem truthy_of_optProp_eq_str {msg : JVal} {k s : String} (h : optProp msg k = .str s) :
    msg.truthy = true := by
  cases msg <;> first | rfl | simp [optProp] at h

/-- A string built as `"+" ++ s` starts with `"+"`. -/
theorem startsWith_plus_append (s : String) : startsWith ("+" ++ s) "+" = true := by
  simp [startsWith, String.data_append]

/-- The phone for a string sender id. -/
theorem messagePhone_of_string {msg : JVal} {s : String} (h : optProp msg "from" = .str s) :
    messagePhone msg = .ok (.str (if startsWith s "+" = true then s else "+" ++ s)) := by
  have ht := truthy_of_optProp_eq_str h
  cases hs : startsWith s "+" <;>
    simp [messagePhone, getProp_of_truthy ht, h, optStartsWith, hs, truthy, toStr, bind,
      Except.bind, pure, Except.pure, Functor.map, Except.map]

/-- Every phone computed is a string that starts with `"+"`. -/
theorem messagePhone_starts_with_plus {msg phone : JVal} (ht : msg.truthy = true)
    (h : messagePhone msg = .ok phone) :
    ∃ p, phone = .str p ∧ startsWith p "+" = true := by
  simp only [messagePhone, getProp_of_truthy ht] at h
  cases hf : optProp msg "from" with
  | undefined =>
    rw [hf] at h
    have : phone = .str ("+" ++ "undefined") := (Except.ok.inj h).symm
    exact ⟨_, this, startsWith_plus_append _⟩
  | null =>
    rw [hf] at h
    have : phone = .str ("+" ++ "null") := (Except.ok.inj h).symm
    exact ⟨_, this, startsWith_plus_append _⟩
  | str s =>
    have h2 := messagePhone_of_string hf
    simp only [messagePhone, getProp_of_truthy ht] at h2
    rw [h2] at h
    have h3 := (Except.ok.inj h).symm
    refine ⟨_, h3, ?_⟩
    by_cases hs : startsWith s "+" = true
    · simp [hs]
    · simp [hs, startsWith_plus_append]
  | bool b => rw [hf] at h; cases h
  | num r => rw [hf] at h; cases h
  | arr xs => rw [hf] at h; cases h
  | obj ps => rw [hf] at h; cases h

/-- The operator `??` is associative. -/
theorem coalesce_assoc (a b c : JVal) : coalesce (coalesce a b) c = coalesce a (coalesce b c) := by
  unfold coalesce
  cases ha : a.nullish <;> simp [ha]

/-- The text of a message of type `"text"`. -/
theorem messageText_text {msg : JVal} (ht : msg.truthy = true)
    (hty : optProp msg "type" = .str "text") :
    messageText msg = .ok (firstPresent [optProp (optProp msg "text") "body"]) := by
  simp [messageText, getProp_of_truthy ht, hty, strictEqStr, bind, Except.bind, pure,
    Except.pure, firstPresent, coalesce]

/-- The text of a message of type `"button"`. -/
theorem messageText_button {msg : JVal} (ht : msg.truthy = true)
    (hty : optProp msg "type" = .str "button") :
    messageText msg = .ok (firstPresent [optProp (optProp msg "button") "text",
      optProp (optProp msg "button") "payload"]) := by
  have h1 : strictEqStr (.str "button") "text" = false := by decide
  simp only [messageText, getProp_of_truthy ht, hty, h1, bind, Except.bind, pure, Except.pure]
  simp only [strictEqStr, beq_self_eq_true, if_true, Bool.false_eq_true, if_false,
    coalesce_assoc]
  rfl

/-- The text of a message of type `"interactive"`. -/
theorem messageText_interactive {msg : JVal} (ht : msg.truthy = true)
    (hty : optProp msg "type" = .str "interactive") :
    messageText msg = .ok (firstPresent (interactiveCandidates msg)) := by
  have h1 : strictEqStr (.str "interactive") "text" = false := by decide
  have h2 : strictEqStr (.str "interactive") "button" = false := by decide
  simp only [messageText, getProp_of_truthy ht, hty, h1, h2, bind, Except.bind, pure,
    Except.pure]
  simp only [strictEqStr, beq_self_eq_true, if_true, Bool.false_eq_true, if_false,
    coalesce_assoc]
  rfl

/-- The text of a message of any other string type. -/
theorem messageText_other {msg : JVal} {t : String} (ht : msg.truthy = true)
    (hty : optProp msg "type" = .str t) (h1 : t ≠ "text") (h2 : t ≠ "button")
    (h3 : t ≠ "interactive") :
    messageText msg = .ok (.str ("[" ++ t ++ " received]")) := by
  simp [messageText, getProp_of_truthy ht, hty, strictEqStr, h1, h2, h3, toStr, bind,
    Except.bind, pure, Except.pure, Functor.map, Except.map]

/-- The text of a message with a string type is always computed. -/
theorem messageText_of_string_type {msg : JVal} {t : String} (ht : msg.truthy = true)
    (hty : optProp msg "type" = .str t) : ∃ text, messageText msg = .ok text := by
  by_cases h1 : t = "text"
  · subst h1
    exact ⟨_, messageText_text ht hty⟩
  by_cases h2 : t = "button"
  · subst h2
    exact ⟨_, messageText_button ht hty⟩
  by_cases h3 : t = "interactive"
  · subst h3
    exact ⟨_, messageText_interactive ht hty⟩
  exact ⟨_, messageText_other ht hty h1 h2 h3⟩

/-- The signature of `signedRequest` is accepted when the secret is set. -/
theorem verifyMetaSignature_signedRequest (lib : NodeLib) (cfg : Config) (body : JVal)
    (secret serialized : String) (hsecret : cfg.WA_APP_SECRET = some secret)
    (hsecret0 : secret ≠ "") (hbody : jsonStringify body = some serialized) :
    verifyMetaSignature lib cfg (signedRequest lib cfg body) = .ok true := by
  have hsig : (signedRequest lib cfg body).headers "x-hub-signature-256"
      = some ("sha256=" ++ lib.hmacSha256Hex secret serialized) := by
    simp [signedRequest, postRequest, hbody, hsecret]
  have hne : ("sha256=" ++ lib.hmacSha256Hex secret serialized) ≠ "" := by
    have := sha256_tag_ne_empty (lib.hmacSha256Hex secret serialized)
    simpa using this
  have hb : jsonStringify (signedRequest lib cfg body).body = some serialized := hbody
  rw [verifyMetaSignature_eq lib cfg _ _ secret serialized hsig hne hsecret hsecret0 hb]
  simp

/-- After an accepted signature and a message from `extractInbound`, the
handler answers 200, makes the one `fetch` call and returns, whatever the
call gives. -/
theorem postWebhook_forwards (lib : NodeLib) (cfg : Config) (req : Request)
    (downstream : FetchOutcome) (m : NormalizedMessage)
    (hv : verifyMetaSignature lib cfg req = .ok true)
    (hm : extractInbound req.body = .ok (some m)) :
    (postWebhook lib cfg req downstream).trace
      = [.sendStatus 200,
        .fetch cfg.CAMUNDA_WEBHOOK_URL
          (FetchInit.mk "POST"
            [("content-type", "application/json"),
              ("authorization", "Basic " ++ lib.base64
                (bufferFrom (cfg.CAMUNDA_BASIC_USER ++ ":" ++ cfg.CAMUNDA_BASIC_PASS)))]
            (jsonStringify m.toJVal))] ∧
    (postWebhook lib cfg req downstream).completion = .returned ∧
    downstreamCalls (postWebhook lib cfg req downstream).trace = 1 := by
  unfold postWebhook
  rw [hv, hm]
  cases downstream with
  | response ok status text => cases ok <;> exact ⟨rfl, rfl, rfl⟩
  | failure => exact ⟨rfl, rfl, rfl⟩

/-- C3 (the code at the failing input, and elsewhere): whenever the signature
is accepted and `extractInbound` returns a message, the trace is the 200
answer followed by one POST to the configured URL whose body is
`JSON.stringify` of that message, for every downstream outcome.  For the
signed delivery of a text message whose sender id is the JSON number
15551234567 the signature is accepted and a message is present, yet the trace
is the 200 answer alone: `extractInbound` throws and nothing is called
downstream. -/
theorem postWebhook_trace (lib : NodeLib) (downstream : FetchOutcome) :
    (∀ (cfg : Config) (req : Request) (m : NormalizedMessage),
      verifyMetaSignature lib cfg req = .ok true →
      extractInbound req.body = .ok (some m) →
      (postWebhook lib cfg req downstream).trace
        = [.sendStatus 200,
          .fetch cfg.CAMUNDA_WEBHOOK_URL
            (FetchInit.mk "POST"
              [("content-type", "application/json"),
                ("authorization", "Basic " ++ lib.base64
                  (bufferFrom (cfg.CAMUNDA_BASIC_USER ++ ":" ++ cfg.CAMUNDA_BASIC_PASS)))]
              (jsonStringify m.toJVal))] ∧
      (postWebhook lib cfg req downstream).completion = .returned) ∧
    (verifyMetaSignature lib sampleConfig (signedRequest lib sampleConfig numericSenderBody)
        = .ok true ∧
      (firstMessage numericSenderBody).truthy = true ∧
      (postWebhook lib sampleConfig (signedRequest lib sampleConfig numericSenderBody)
        downstream).trace = [.sendStatus 200] ∧
      downstreamCalls (postWebhook lib sampleConfig
        (signedRequest lib sampleConfig numericSenderBody) downstream).trace = 0) := by
  constructor
  · intro cfg req m hv hm
    have h := postWebhook_forwards lib cfg req downstream m hv hm
    exact ⟨h.1, h.2.1⟩
  · have hv := verifyMetaSignature_signedRequest lib sampleConfig numericSenderBody "s3cret" _
      rfl (by decide) rfl
    have hx : extractInbound (signedRequest lib sampleConfig numericSenderBody).body
        = .error .typeError := rfl
    refine ⟨hv, rfl, ?_, ?_⟩
    · unfold postWebhook
      rw [hv, hx]
    · unfold postWebhook
      rw [hv, hx]
      rfl

/-- The first part of `postWebhook_trace` at the signed delivery of a text
message from `"15551234567"`, with a downstream call that fails. -/
theorem postWebhook_trace_witness :
    (postWebhook sampleLib sampleConfig
      (signedRequest sampleLib sampleConfig (deliveryWith (textMessage (.str "15551234567"))))
      .failure).trace
      = [.sendStatus 200,
        .fetch defaultWebhookUrl
          (FetchInit.mk "POST"
            [("content-type", "application/json"),
              ("authorization", "Basic " ++ sampleLib.base64 (bufferFrom "webhook:test123"))]
            (some "\x7b\"phone\":\"+15551234567\",\"text\":\"Hello\",\"waMessageId\":\"wamid.1\",\"timestamp\":\"1700000000\"\x7d"))] :=
  ((postWebhook_trace sampleLib .failure).1 sampleConfig
    (signedRequest sampleLib sampleConfig (deliveryWith (textMessage (.str "15551234567"))))
    (NormalizedMessage.mk (.str "+15551234567") (.str "Hello") (.str "wamid.1")
      (.str "1700000000"))
    (verifyMetaSignature_signedRequest sampleLib sampleConfig _ "s3cret" _ rfl (by decide) rfl)
    rfl).1

/-- C6 (the code at the failing input): `extractInbound` throws a `TypeError`
on a message whose sender id is a JSON number, and on a message whose type is
an object with a `toString` member; in the POST handler the exception is
raised outside the `try`, so a signed delivery of the first message ends the
handler with that exception uncaught. -/
theorem extractInbound_throws_on_non_string_sender :
    extractInbound numericSenderBody = .error .typeError ∧
    extractInbound objectTypeBody = .error .typeError ∧
    ∀ (lib : NodeLib) (downstream : FetchOutcome),
      (postWebhook lib sampleConfig (signedRequest lib sampleConfig numericSenderBody)
        downstream).completion = .threw .typeError := by
  refine ⟨rfl, rfl, ?_⟩
  intro lib downstream
  have hv := verifyMetaSignature_signedRequest lib sampleConfig numericSenderBody "s3cret" _
    rfl (by decide) rfl
  have hx : extractInbound (signedRequest lib sampleConfig numericSenderBody).body
      = .error .typeError := rfl
  unfold postWebhook
  rw [hv, hx]

/-- Each of `entry`, `changes`, `value` and `messages` being missing, `null` or
(for the arrays) empty leaves `msg` `undefined`. -/
theorem firstMessage_absent (body : JVal)
    (h : optProp body "entry" = .undefined ∨ optProp body "entry" = .null ∨
      optProp body "entry" = .arr [] ∨
      optProp (optIndex0 (optProp body "entry")) "changes" = .undefined ∨
      optProp (optIndex0 (optProp body "entry")) "changes" = .null ∨
      optProp (optIndex0 (optProp body "entry")) "changes" = .arr [] ∨
      optProp (optIndex0 (optProp (optIndex0 (optProp body "entry")) "changes")) "value"
        = .undefined ∨
      optProp (optIndex0 (optProp (optIndex0 (optProp body "entry")) "changes")) "value"
        = .null ∨
      optProp (optProp (optIndex0 (optProp (optIndex0 (optProp body "entry")) "changes"))
        "value") "messages" = .undefined ∨
      optProp (optProp (optIndex0 (optProp (optIndex0 (optProp body "entry")) "changes"))
        "value") "messages" = .null ∨
      optProp (optProp (optIndex0 (optProp (optIndex0 (optProp body "entry")) "changes"))
        "value") "messages" = .arr []) :
    firstMessage body = .undefined := by
  rcases h with h | h | h | h | h | h | h | h | h | h | h <;>
  · simp only [firstMessage, h]
    rfl

/-- C5: when `entry[0].changes[0].value.messages[0]` is absent (`undefined`, or
any other falsy value), `extractInbound` returns `null`, and a POST request
with such a body and an accepted signature is answered 200, the handler
returns, and nothing is called downstream.  The message is absent as soon as
`entry`, `changes` or `messages` is missing, `null` or empty, or `value` is
missing or `null`. -/
theorem extractInbound_without_message (body : JVal) :
    ((optProp body "entry" = .undefined ∨ optProp body "entry" = .null ∨
      optProp body "entry" = .arr [] ∨
      optProp (optIndex0 (optProp body "entry")) "changes" = .undefined ∨
      optProp (optIndex0 (optProp body "entry")) "changes" = .null ∨
      optProp (optIndex0 (optProp body "entry")) "changes" = .arr [] ∨
      optProp (optIndex0 (optProp (optIndex0 (optProp body "entry")) "changes")) "value"
        = .undefined ∨
      optProp (optIndex0 (optProp (optIndex0 (optProp body "entry")) "changes")) "value"
        = .null ∨
      optProp (optProp (optIndex0 (optProp (optIndex0 (optProp body "entry")) "changes"))
        "value") "messages" = .undefined ∨
      optProp (optProp (optIndex0 (optProp (optIndex0 (optProp body "entry")) "changes"))
        "value") "messages" = .null ∨
      optProp (optProp (optIndex0 (optProp (optIndex0 (optProp body "entry")) "changes"))
        "value") "messages" = .arr []) →
      firstMessage body = .undefined) ∧
    ((firstMessage body).truthy = false →
      extractInbound body = .ok none ∧
      ∀ (lib : NodeLib) (cfg : Config) (req : Request) (downstream : FetchOutcome),
        req.body = body → verifyMetaSignature lib cfg req = .ok true →
        (postWebhook lib cfg req downstream).trace = [.sendStatus 200] ∧
        (postWebhook lib cfg req downstream).completion = .returned ∧
        downstreamCalls (postWebhook lib cfg req downstream).trace = 0) := by
  refine ⟨firstMessage_absent body, fun h => ⟨extractInbound_of_falsy h, ?_⟩⟩
  intro lib cfg req downstream hb hv
  have hx : extractInbound req.body = .ok none := by
    rw [hb]
    exact extractInbound_of_falsy h
  unfold postWebhook
  rw [hv, hx]
  exact ⟨rfl, rfl, rfl⟩

/-- The theorem above at a status update, whose `value` has no `messages`,
delivered with an accepted signature. -/
theorem extractInbound_without_message_witness :
    firstMessage statusUpdateBody = .undefined ∧
    extractInbound statusUpdateBody = .ok none ∧
    verifyMetaSignature sampleLib sampleConfig
      (signedRequest sampleLib sampleConfig statusUpdateBody) = .ok true ∧
    (postWebhook sampleLib sampleConfig (signedRequest sampleLib sampleConfig statusUpdateBody)
      (.response true 200 (some "ok"))).trace = [.sendStatus 200] :=
  ⟨(extractInbound_without_message statusUpdateBody).1
      (Or.inr (Or.inr (Or.inr (Or.inr (Or.inr (Or.inr (Or.inr (Or.inr (Or.inl rfl))))))))),
    ((extractInbound_without_message statusUpdateBody).2 rfl).1,
    verifyMetaSignature_signedRequest sampleLib sampleConfig statusUpdateBody "s3cret" _
      rfl (by decide) rfl,
    (((extractInbound_without_message statusUpdateBody).2 rfl).2 sampleLib sampleConfig
      (signedRequest sampleLib sampleConfig statusUpdateBody) (.response true 200 (some "ok"))
      rfl (verifyMetaSignature_signedRequest sampleLib sampleConfig statusUpdateBody "s3cret" _
        rfl (by decide) rfl)).1⟩

/-- C7 (counterexample): for the interactive message whose button reply has
the title `""` and the id `"b1"`, `extractInbound` produces the text `""`,
whereas the first non-empty candidate is `"b1"`. -/
theorem interactive_empty_title_counterexample :
    extractInbound (deliveryWith emptyTitleMessage)
      = .ok (some (NormalizedMessage.mk (.str "+15551234567") (.str "") (.str "wamid.3")
        (.str "1700000000"))) ∧
    firstNonEmpty (interactiveCandidates emptyTitleMessage) = .str "b1" ∧
    messageText emptyTitleMessage
      ≠ .ok (firstNonEmpty (interactiveCandidates emptyTitleMessage)) := by
  refine ⟨rfl, rfl, ?_⟩
  intro h
  have h1 : messageText emptyTitleMessage = .ok (.str "") := rfl
  have h2 : firstNonEmpty (interactiveCandidates emptyTitleMessage) = .str "b1" := rfl
  rw [h1, h2] at h
  have h3 : ("" : String) = "b1" := JVal.str.inj (Except.ok.inj h)
  exact absurd h3 (by decide)

/-- C7 (amended): for a message of type `"interactive"` the text is the first
of `button_reply.title`, `button_reply.id`, `list_reply.title` and
`list_reply.id`, in that order, that is neither absent nor `null`, and the
empty string when all four are absent or `null`; every message
`extractInbound` produces carries that text, and it produces one whenever the
phone is computed. -/
theorem interactive_text_first_present (body : JVal)
    (hty : optProp (firstMessage body) "type" = .str "interactive") :
    messageText (firstMessage body)
      = .ok (firstPresent (interactiveCandidates (firstMessage body))) ∧
    (∀ m : NormalizedMessage, extractInbound body = .ok (some m) →
      m.text = firstPresent (interactiveCandidates (firstMessage body))) ∧
    (∀ phone : JVal, messagePhone (firstMessage body) = .ok phone →
      extractInbound body = .ok (some (NormalizedMessage.mk phone
        (firstPresent (interactiveCandidates (firstMessage body)))
        (optProp (firstMessage body) "id") (optProp (firstMessage body) "timestamp")))) := by
  have ht := truthy_of_optProp_eq_str hty
  have hx := messageText_interactive ht hty
  refine ⟨hx, ?_, ?_⟩
  · intro m hm
    have h2 := (extractInbound_some_parts hm).2.2.1
    rw [hx] at h2
    exact (Except.ok.inj h2).symm
  · intro phone hp
    exact extractInbound_of_parts ht hp hx

/-- The theorem above at the message with an empty title. -/
theorem interactive_text_first_present_witness :
    optProp (firstMessage (deliveryWith emptyTitleMessage)) "type" = .str "interactive" ∧
    messageText (firstMessage (deliveryWith emptyTitleMessage))
      = .ok (firstPresent [.str "", .str "b1", .undefined, .undefined]) ∧
    firstPresent [.str "", .str "b1", .undefined, .undefined] = .str "" :=
  ⟨rfl, (interactive_text_first_present (deliveryWith emptyTitleMessage) rfl).1, rfl⟩

/-- C8 (the code at the failing input, and elsewhere): when the sender id of
the message is a string `s`, line 59 computes the phone `s` if `s` starts
with `"+"` and `"+" ++ s` otherwise, and `extractInbound` returns a message
with that phone unless the conversion of `type` to a string throws (it does
not for a string type); the phone of every message `extractInbound` returns is
a string that starts with `"+"`; and a sender id that is such a phone is left
as it is.  For the message whose sender id is the string `"15551234567"` and
whose type is an object with a `toString` member, the phone is computed but
`extractInbound` throws and yields no message. -/
theorem extractInbound_phone :
    (∀ (msg : JVal) (s : String), optProp msg "from" = .str s →
      messagePhone msg = .ok (.str (if startsWith s "+" = true then s else "+" ++ s))) ∧
    (∀ (body : JVal) (s : String), optProp (firstMessage body) "from" = .str s →
      extractInbound body = (messageText (firstMessage body)).map (fun text =>
        some (NormalizedMessage.mk (.str (if startsWith s "+" = true then s else "+" ++ s))
          text (optProp (firstMessage body) "id")
          (optProp (firstMessage body) "timestamp")))) ∧
    (∀ (body : JVal) (s t : String), optProp (firstMessage body) "from" = .str s →
      optProp (firstMessage body) "type" = .str t →
      ∃ text, extractInbound body = .ok (some (NormalizedMessage.mk
        (.str (if startsWith s "+" = true then s else "+" ++ s)) text
        (optProp (firstMessage body) "id") (optProp (firstMessage body) "timestamp")))) ∧
    (∀ (body : JVal) (m : NormalizedMessage), extractInbound body = .ok (some m) →
      ∃ p, m.phone = .str p ∧ startsWith p "+" = true) ∧
    (∀ (msg later : JVal) (p : String), msg.truthy = true → messagePhone msg = .ok (.str p) →
      optProp later "from" = .str p → messagePhone later = .ok (.str p)) ∧
    (optProp (firstMessage objectTypeBody) "from" = .str "15551234567" ∧
      messagePhone (firstMessage objectTypeBody) = .ok (.str "+15551234567") ∧
      extractInbound objectTypeBody = .error .typeError) := by
  refine ⟨fun msg s h => messagePhone_of_string h, ?_, ?_, ?_, ?_, ⟨rfl, rfl, rfl⟩⟩
  · intro body s h
    have ht := truthy_of_optProp_eq_str h
    rw [extractInbound_of_truthy ht, messagePhone_of_string h]
    cases messageText (firstMessage body) <;> rfl
  · intro body s t h hty
    have ht := truthy_of_optProp_eq_str h
    obtain ⟨text, hx⟩ := messageText_of_string_type ht hty
    exact ⟨text, extractInbound_of_parts ht (messagePhone_of_string h) hx⟩
  · intro body m hm
    obtain ⟨ht, hp, _⟩ := extractInbound_some_parts hm
    exact messagePhone_starts_with_plus ht hp
  · intro msg later p ht hp hl
    obtain ⟨q, hq, hs⟩ := messagePhone_starts_with_plus ht hp
    have hpq : p = q := JVal.str.inj hq
    subst hpq
    rw [messagePhone_of_string hl]
    simp [hs]

/-- The theorem above at the sender ids `"15551234567"` and `"+15551234567"`. -/
theorem extractInbound_phone_witness :
    messagePhone (textMessage (.str "15551234567")) = .ok (.str "+15551234567") ∧
    messagePhone (textMessage (.str "+15551234567")) = .ok (.str "+15551234567") ∧
    extractInbound (deliveryWith (textMessage (.str "15551234567")))
      = .ok (some (NormalizedMessage.mk (.str "+15551234567") (.str "Hello") (.str "wamid.1")
        (.str "1700000000"))) :=
  ⟨extractInbound_phone.1 (textMessage (.str "15551234567")) "15551234567" rfl,
    extractInbound_phone.1 (textMessage (.str "+15551234567")) "+15551234567" rfl,
    extractInbound_phone.2.1 (deliveryWith (textMessage (.str "15551234567"))) "15551234567" rfl⟩

/-- C9: for a message of type `"text"` the text is `text.body`, or `""` when
that is absent or `null`; for type `"button"` it is `button.text`, else
`button.payload`, else `""`; for a type string `t` other than `"text"`,
`"button"` and `"interactive"` it is `"[" ++ t ++ " received]"`.  Every message
`extractInbound` returns carries the text so computed and the `id` and
`timestamp` members of the message as they are, and `extractInbound` returns
one whenever the message is truthy and its phone and text are computed. -/
theorem extractInbound_text :
    (∀ msg : JVal, msg.truthy = true → optProp msg "type" = .str "text" →
      messageText msg = .ok (firstPresent [optProp (optProp msg "text") "body"])) ∧
    (∀ msg : JVal, msg.truthy = true → optProp msg "type" = .str "button" →
      messageText msg = .ok (firstPresent [optProp (optProp msg "button") "text",
        optProp (optProp msg "button") "payload"])) ∧
    (∀ (msg : JVal) (t : String), msg.truthy = true → optProp msg "type" = .str t →
      t ≠ "text" → t ≠ "button" → t ≠ "interactive" →
      messageText msg = .ok (.str ("[" ++ t ++ " received]"))) ∧
    (∀ (body : JVal) (m : NormalizedMessage), extractInbound body = .ok (some m) →
      messageText (firstMessage body) = .ok m.text ∧
      m.waMessageId = optProp (firstMessage body) "id" ∧
      m.timestamp = optProp (firstMessage body) "timestamp") ∧
    (∀ (body phone text : JVal), (firstMessage body).truthy = true →
      messagePhone (firstMessage body) = .ok phone →
      messageText (firstMessage body) = .ok text →
      extractInbound body = .ok (some (NormalizedMessage.mk phone text
        (optProp (firstMessage body) "id") (optProp (firstMessage body) "timestamp")))) := by
  refine ⟨fun msg ht hty => messageText_text ht hty,
    fun msg ht hty => messageText_button ht hty,
    fun msg t ht hty h1 h2 h3 => messageText_other ht hty h1 h2 h3, ?_,
    fun body phone text ht hp hx => extractInbound_of_parts ht hp hx⟩
  intro body m hm
  obtain ⟨_, _, hx, hi, hts⟩ := extractInbound_some_parts hm
  exact ⟨hx, hi, hts⟩

/-- The theorem above at a text, a button and a location message. -/
theorem extractInbound_text_witness :
    messageText (textMessage (.str "15551234567")) = .ok (.str "Hello") ∧
    messageText buttonMessage = .ok (.str "BTN1") ∧
    messageText locationMessage = .ok (.str "[location received]") ∧
    extractInbound (deliveryWith locationMessage)
      = .ok (some (NormalizedMessage.mk (.str "+15551234567") (.str "[location received]")
        (.str "wamid.5") (.num "1700000000"))) :=
  ⟨extractInbound_text.1 (textMessage (.str "15551234567")) rfl rfl,
    extractInbound_text.2.1 buttonMessage rfl rfl,
    extractInbound_text.2.2.1 locationMessage "location" rfl rfl (by decide) (by decide)
      (by decide),
    extractInbound_text.2.2.2.2 (deliveryWith locationMessage) (.str "+15551234567")
      (.str "[location received]") rfl rfl rfl⟩

end WaRelay
